import Mathlib

/-!
Shallow embedding of the memory-view implementation in src/interview.c.

Modelling conventions:
- Byte-addressable memory is a total function from addresses (Nat) to byte
  values (Nat); segment data pointers are base addresses into that memory.
- A C Buffer { void *data; size_t len; } becomes a pair of Nats.
- MemView.nbuffers and MemView.nbytes are C int fields.  nbuffers is modelled
  as Nat; nbytes is modelled as Int because the buggy bookkeeping can drive it
  negative.  The arithmetic is exact for values below 2^31; the 32-bit wrap of
  the nbytes accumulator is modelled separately (memview_init_nbytes_i32) for
  the width claim.
- The C for/while loops become fuel-based recursion.  The fuel supplied at the
  call sites (nbuffers for the walks, nbuffers + 1 for the copy loop) covers
  every iteration the C loops can perform, since the loop index increases by
  one per iteration.
- The caller-supplied destination buffer is a total function from 0-based
  positions to byte values; memview_read returns the updated function.
- The copy loop additionally records the address range of every memcpy it
  performs (CopyStep) so that memory-safety statements about the copies can be
  settled; this trace does not influence the computed bytes.
- Paths that are undefined behaviour in C are modelled by a fixed choice,
  noted where they occur; no settled claim depends on those paths.
-/

/-- A piece of memory: the C struct Buffer (data pointer, length), with the
pointer modelled as a base address. -/
structure Buffer where
  data : Nat
  len : Nat
deriving Repr, DecidableEq

/-- The C struct MemView.  buffers holds the contents of the descriptor array
allocated by calloc (all slots, including slots beyond nbuffers that later
become stale); nbuffers and nbytes are the int fields. -/
structure MemView where
  buffers : List Buffer
  nbuffers : Nat
  nbytes : Int
deriving Repr, DecidableEq

/-- One memcpy performed by the copy loop of memview_read: the segment it was
taken from (base address and length of the Buffer variable b), the source
start address, the byte count, and the 0-based destination offset. -/
structure CopyStep where
  segData : Nat
  segLen : Nat
  src : Nat
  count : Nat
  dstOff : Nat
deriving Repr, DecidableEq

/-- Result of memview_read: the returned bool, the destination contents after
the call, and the trace of copy steps performed. -/
structure ReadResult where
  ok : Bool
  dest : Nat → Nat
  steps : List CopyStep

/-- Conversion applied by the C comparison `offset >= memview->nbytes`:
the int operand is converted to uint64_t. -/
def u64ofInt (z : Int) : Nat :=
  (z % (2 : Int) ^ 64).toNat

/-- Two's-complement wrap to 32-bit signed int, the width of the C field
`int nbytes` (interview.c line 45). -/
def i32wrap (z : Int) : Int :=
  (z + (2 : Int) ^ 31) % (2 : Int) ^ 32 - (2 : Int) ^ 31

/-- memview_init (interview.c lines 53-70).  calloc is modelled as succeeding;
memcpy copies the caller's descriptor array by value into the view.  The
length loop executes `memview->nbytes += buffers[i].len` (line 67) without
ever assigning nbytes first, so the sum lands on top of whatever value the
caller's uninitialized struct field held; that pre-call value is the
explicit parameter nbytes0. -/
def memview_init (nbytes0 : Int) (bs : List Buffer) : Bool × MemView :=
  (true,
    { buffers := bs
      nbuffers := bs.length
      nbytes := bs.foldl (fun a b => a + (b.len : Int)) nbytes0 })

/-- The nbytes accumulation of memview_init at its true C width: each
`nbytes += len` is a 32-bit signed int addition (interview.c lines 45, 67),
modelled with two's-complement wrap. -/
def memview_init_nbytes_i32 (nbytes0 : Int) (bs : List Buffer) : Int :=
  bs.foldl (fun a b => i32wrap (a + (b.len : Int))) nbytes0

/-- Loop body of memview_discard_front (interview.c lines 85-99).  The index i
walks while deloffset > buffers[i].len, subtracting; on break the descriptor
at i is adjusted in place, nbuffers shrinks by i, nbytes drops by the full
requested amount, and the adjusted descriptor is copied into slot 0 (the
following descriptors are not shifted).  Fuel counts the remaining loop
iterations; the caller passes nbuffers, which the loop can never exceed. -/
def memview_discard_front_go (m : MemView) (nbytes deloffset i : Nat) : Nat → MemView
  | 0 => m
  | fuel + 1 =>
    if i < m.nbuffers then
      let b := m.buffers.getD i ⟨0, 0⟩
      if b.len < deloffset then
        memview_discard_front_go m nbytes (deloffset - b.len) (i + 1) fuel
      else
        let adj : Buffer := ⟨b.data + deloffset, b.len - deloffset⟩
        { buffers := (m.buffers.set i adj).set 0 adj
          nbuffers := m.nbuffers - i
          nbytes := m.nbytes - (nbytes : Int) }
    else m

/-- memview_discard_front (interview.c lines 83-100).  When the walk exhausts
all nbuffers descriptors without the remaining deloffset fitting into one,
the loop falls through and the view is returned unmodified. -/
def memview_discard_front (m : MemView) (nbytes : Nat) : MemView :=
  memview_discard_front_go m nbytes nbytes 0 m.nbuffers

/-- Search loop of memview_read (interview.c lines 121-130): find the first
descriptor whose length the running coffset does not exceed, returning (pos,
coffset).  If the loop exhausts without a break, the C locals pos and b stay
uninitialized (undefined behaviour); the model returns pos = nbuffers, which
makes the copy loop below read the descriptor slot just past the live window,
one fixed choice of junk. -/
def memview_search (m : MemView) (coffset i : Nat) : Nat → Nat × Nat
  | 0 => (m.nbuffers, coffset)
  | fuel + 1 =>
    if i < m.nbuffers then
      let b := m.buffers.getD i ⟨0, 0⟩
      if b.len < coffset then
        memview_search m (coffset - b.len) (i + 1) fuel
      else (i, coffset)
    else (m.nbuffers, coffset)

/-- One memcpy into the destination: k bytes taken from source address src
onward land at destination offsets dst, dst+1, ... -/
def copyBytes (mem dest : Nat → Nat) (dst src k : Nat) : Nat → Nat :=
  fun a => if dst ≤ a ∧ a < dst + k then mem (src + (a - dst)) else dest a

/-- Copy loop of memview_read (interview.c lines 133-149).  Per iteration: if
b.len >= lencopy the code copies lencopy bytes from b.data + coffset, else it
copies b.len bytes from b.data + coffset; the destination offset is
len - lencopy; then lencopy decreases by b.len - coffset, coffset becomes 0,
and pos advances (breaking out when pos has reached nbuffers).  The function
returns true in every exit from the loop, matching line 151. -/
def memview_copy (mem : Nat → Nat) (m : MemView) (len : Nat) (dest : Nat → Nat)
    (lencopy : Int) (coffset pos : Nat) (b : Buffer) (steps : List CopyStep) :
    Nat → ReadResult
  | 0 => ⟨true, dest, steps.reverse⟩
  | fuel + 1 =>
    if 0 < lencopy then
      let k : Nat := if lencopy ≤ (b.len : Int) then lencopy.toNat else b.len
      let dstOff : Nat := len - lencopy.toNat
      let dest2 := copyBytes mem dest dstOff (b.data + coffset) k
      let steps2 : List CopyStep := ⟨b.data, b.len, b.data + coffset, k, dstOff⟩ :: steps
      let lencopy2 : Int := lencopy - ((b.len : Int) - (coffset : Int))
      if pos < m.nbuffers then
        memview_copy mem m len dest2 lencopy2 0 (pos + 1)
          (m.buffers.getD (pos + 1) ⟨0, 0⟩) steps2 fuel
      else ⟨true, dest2, steps2.reverse⟩
    else ⟨true, dest, steps.reverse⟩

/-- memview_read (interview.c lines 111-152).  The guard at line 117 is
`len < 0 || offset >= memview->nbytes`; len is size_t so the first disjunct
is always false, leaving only the offset test, an unsigned 64-bit comparison
after the int nbytes is converted.  On guard failure the function returns
false immediately, before any copy.  Otherwise the search loop locates the
starting descriptor and the copy loop runs; the function then returns true. -/
def memview_read (mem : Nat → Nat) (m : MemView) (offset len : Nat)
    (dest : Nat → Nat) : ReadResult :=
  if u64ofInt m.nbytes ≤ offset then ⟨false, dest, []⟩
  else
    memview_copy mem m len dest (len : Int)
      (memview_search m offset 0 m.nbuffers).2
      (memview_search m offset 0 m.nbuffers).1
      (m.buffers.getD (memview_search m offset 0 m.nbuffers).1 ⟨0, 0⟩)
      [] (m.nbuffers + 1)

/-- A memview_read call together with the view the caller observes afterwards:
the C function only loads from *memview (lines 111-152 contain no store to
any memview field), so the view after the call is the view passed in. -/
def memview_read_call (mem : Nat → Nat) (m : MemView) (offset len : Nat)
    (dest : Nat → Nat) : ReadResult × MemView :=
  (memview_read mem m offset len dest, m)

/-- The bytes of one segment, read from memory. -/
def segBytes (mem : Nat → Nat) (b : Buffer) : List Nat :=
  (List.range b.len).map fun j => mem (b.data + j)

/-- The logical concatenation of a segment list's bytes, in order. -/
def concatBytes (mem : Nat → Nat) (bs : List Buffer) : List Nat :=
  (bs.map (segBytes mem)).flatten

/-- Bounds discipline for one copy step: the source range stays inside the
segment the step copies from, and the destination range stays inside the
caller's len-byte buffer. -/
def CopyStep.inBounds (len : Nat) (s : CopyStep) : Prop :=
  s.segData ≤ s.src ∧ s.src + s.count ≤ s.segData + s.segLen ∧
    s.dstOff + s.count ≤ len

instance (len : Nat) (s : CopyStep) : Decidable (CopyStep.inBounds len s) :=
  inferInstanceAs (Decidable (s.segData ≤ s.src ∧
    s.src + s.count ≤ s.segData + s.segLen ∧ s.dstOff + s.count ≤ len))

/-- World state separating the caller's descriptor array from the view, to
express what mutating the caller's array after init can influence. -/
structure World where
  callerBuffers : List Buffer
  view : MemView

/-- Build a view from the caller's descriptor array (memview_init copies the
array by value, interview.c line 63). -/
def world_init (nbytes0 : Int) (bs : List Buffer) : World :=
  ⟨bs, (memview_init nbytes0 bs).2⟩

/-- The caller overwrites its own descriptor array (the pointer/length pairs,
not the segment bytes). -/
def world_mutate_caller (w : World) (bs2 : List Buffer) : World :=
  ⟨bs2, w.view⟩

/-- A discard applied to the world: only the view changes. -/
def world_discard (w : World) (n : Nat) : World :=
  ⟨w.callerBuffers, memview_discard_front w.view n⟩

/-- A sequence of discards applied to the world. -/
def world_discards (w : World) (L : List Nat) : World :=
  L.foldl world_discard w

/-- A read served from the world's view. -/
def world_read (mem : Nat → Nat) (w : World) (offset len : Nat)
    (dest : Nat → Nat) : ReadResult :=
  memview_read mem w.view offset len dest

/-- The segment list of the test in main (interview.c lines 156-160): hello,
world, ! placed at non-adjacent base addresses 0, 100, 200. -/
def hwBuffers : List Buffer :=
  [⟨0, 5⟩, ⟨100, 5⟩, ⟨200, 1⟩]

/-- Memory contents backing hwBuffers: hello at 0..4, world at 100..104,
the bang at 200; every other address reads 0. -/
def hwMem : Nat → Nat := fun a =>
  if a < 5 then [104, 101, 108, 108, 111].getD a 0
  else if 100 ≤ a ∧ a < 105 then [119, 111, 114, 108, 100].getD (a - 100) 0
  else if a = 200 then 33
  else 0

/-- An all-zero destination buffer. -/
def dest0 : Nat → Nat := fun _ => 0

/-- The fresh view over hwBuffers, built from a zeroed struct. -/
def hwView : MemView :=
  (memview_init 0 hwBuffers).2

/-- The view of main after discard_front(2) and discard_front(4). -/
def hwView2 : MemView :=
  memview_discard_front (memview_discard_front hwView 2) 4

/-- A view over a single 5-byte segment. -/
def oneView : MemView :=
  (memview_init 0 [⟨0, 5⟩]).2

/-- Segment list with lengths 1, 2, 1 at bases 0, 10, 20. -/
def buffers3 : List Buffer :=
  [⟨0, 1⟩, ⟨10, 2⟩, ⟨20, 1⟩]

/-- Memory backing buffers3: bytes 10, then 20 21, then 30. -/
def mem3 : Nat → Nat := fun a =>
  if a = 0 then 10
  else if a = 10 then 20
  else if a = 11 then 21
  else if a = 20 then 30
  else 0

/-- The view over buffers3 after discard_front(2). -/
def view3 : MemView :=
  memview_discard_front (memview_init 0 buffers3).2 2

/-- The empty view built from a zeroed struct. -/
def emptyView : MemView :=
  (memview_init 0 []).2

theorem memview_copy_ok (mem : Nat → Nat) (m : MemView) (len : Nat) :
    ∀ (fuel : Nat) (dest : Nat → Nat) (lencopy : Int) (coffset pos : Nat)
      (b : Buffer) (steps : List CopyStep),
      (memview_copy mem m len dest lencopy coffset pos b steps fuel).ok = true := by
  intro fuel
  induction fuel with
  | zero => intro dest lencopy coffset pos b steps; rfl
  | succ n ih =>
    intro dest lencopy coffset pos b steps
    simp only [memview_copy]
    by_cases h1 : (0 : Int) < lencopy
    · simp only [if_pos h1]
      by_cases h2 : pos < m.nbuffers
      · simp only [if_pos h2]; exact ih _ _ _ _ _ _
      · simp only [if_neg h2]
    · simp only [if_neg h1]

/-- Validation against the first assert of main: read(3, 4) on the fresh view
returns the bytes of lowo. -/
theorem model_agrees_main_first_read :
    (memview_read hwMem hwView 3 4 dest0).ok = true ∧
      (memview_read hwMem hwView 3 4 dest0).dest 0 = 108 ∧
      (memview_read hwMem hwView 3 4 dest0).dest 1 = 111 ∧
      (memview_read hwMem hwView 3 4 dest0).dest 2 = 119 ∧
      (memview_read hwMem hwView 3 4 dest0).dest 3 = 111 := by
  decide

/-- View equality under discard sequences does not depend on the caller's
descriptor array component of the world: discards act on the view only. -/
theorem world_discards_view (bs bs2 : List Buffer) (L : List Nat) :
    ∀ v : MemView,
      (world_discards ⟨bs2, v⟩ L).view = (world_discards ⟨bs, v⟩ L).view := by
  induction L with
  | nil => intro v; rfl
  | cons d t ih => intro v; exact ih (memview_discard_front v d)

/-- Claim C1: the read/concat equivalence fails on the code.  In the scenario
of main (segments hello, world, bang; discard_front 2 then 4; 6 bytes
discarded in total) the valid call read(4, 1) succeeds but yields byte 111
(the letter o), while slicing the original concatenation at 6 + 4 for 1 byte
yields 33 (the bang): discard_front left a duplicated descriptor in place of
the true tail, so the copy loop delivers the wrong byte. -/
theorem read_concat_equivalence_fails_after_discard :
    (memview_read hwMem hwView2 4 1 dest0).ok = true ∧
      (memview_read hwMem hwView2 4 1 dest0).dest 0 = 111 ∧
      ((concatBytes hwMem hwBuffers).drop (6 + 4)).take 1 = [33] ∧
      ¬ (memview_read hwMem hwView2 4 1 dest0).dest 0 = 33 := by
  decide

/-- Claim C2: the failure condition of memview_read is offset >= total, not
offset + length > total.  On the fresh 11-byte view, read(9, 5) succeeds even
though 9 + 5 > 11 (the claim requires failure), and read(11, 0) fails even
though 11 + 0 <= 11 (the claim requires success). -/
theorem read_guard_mismatch :
    (memview_read hwMem hwView 9 5 dest0).ok = true ∧
      (memview_read hwMem hwView 11 0 dest0).ok = false ∧
      hwView.nbytes = 11 := by
  decide

/-- Claim C3: over-discard does not clamp.  On a single 5-byte segment,
discard_front(7) walks past every descriptor without the break body running,
so the view is returned completely unchanged and total_length stays 5; the
claim requires max(0, 5 - 7) = 0. -/
theorem discard_over_length_is_noop :
    memview_discard_front oneView 7 = oneView ∧ oneView.nbytes = 5 := by
  decide

/-- Claim C4: a copy step reads past its segment's end.  For read(3, 4) on
the fresh view (the first assert of main), the first copy step copies 4 bytes
starting at address 3 of the 5-byte segment at base 0, so its source range
[3, 7) leaves the segment [0, 5): the steps do not all satisfy the bounds
discipline. -/
theorem copy_step_reads_past_segment_end :
    (memview_read hwMem hwView 3 4 dest0).steps.head? =
        some ⟨0, 5, 3, 4, 0⟩ ∧
      ¬ ∀ s ∈ (memview_read hwMem hwView 3 4 dest0).steps, s.inBounds 4 := by
  decide

/-- Claim C5: memview_init accumulates the segment lengths on top of the
uninitialized nbytes field instead of assigning the sum.  With a pre-call
field value of 1 and segment lengths 5, 5, 1 the resulting total is 12, not
the exact sum 11 the claim requires. -/
theorem init_accumulates_onto_uninitialized_total :
    (memview_init 1 hwBuffers).1 = true ∧
      (memview_init 1 hwBuffers).2.nbytes = 12 := by
  decide

/-- Claim C6: after a discard the reachable bytes are not the suffix of the
original concatenation.  On segments of lengths 1, 2, 1 holding bytes 10,
20 21, 30, discard_front(2) leaves the adjusted middle descriptor in slots
0 and 1, so read(0, 2) returns the byte 21 twice, while the true 2-byte
suffix of the concatenation is 21 followed by 30: a reachable byte is
duplicated and the final segment's byte is no longer delivered. -/
theorem discard_duplicates_segment :
    (memview_read mem3 view3 0 2 dest0).ok = true ∧
      (memview_read mem3 view3 0 2 dest0).dest 0 = 21 ∧
      (memview_read mem3 view3 0 2 dest0).dest 1 = 21 ∧
      ((concatBytes mem3 buffers3).drop 2).take 2 = [21, 30] := by
  decide

/-- Claim C7: whenever memview_read returns false it has performed no copy at
all: every destination position still holds its old byte, and the view the
caller observes after the call is the view passed in (the function never
stores to a memview field). -/
theorem read_failure_all_or_nothing (mem : Nat → Nat) (m : MemView)
    (offset len : Nat) (dest : Nat → Nat)
    (h : (memview_read mem m offset len dest).ok = false) :
    (∀ a, (memview_read mem m offset len dest).dest a = dest a) ∧
      (memview_read_call mem m offset len dest).2 = m := by
  refine ⟨?_, rfl⟩
  intro a
  by_cases hg : u64ofInt m.nbytes ≤ offset
  · simp [memview_read, hg]
  · exfalso
    have hok := memview_copy_ok mem m len (m.nbuffers + 1) dest (len : Int)
      (memview_search m offset 0 m.nbuffers).2
      (memview_search m offset 0 m.nbuffers).1
      (m.buffers.getD (memview_search m offset 0 m.nbuffers).1 ⟨0, 0⟩) []
    rw [memview_read, if_neg hg] at h
    rw [h] at hok
    exact Bool.false_ne_true hok

/-- Witness for read_failure_all_or_nothing: on the empty view, read(0, 1)
fails and destination position 5 keeps its old byte. -/
theorem read_failure_all_or_nothing_witness :
    (memview_read hwMem emptyView 0 1 dest0).ok = false ∧
      (memview_read hwMem emptyView 0 1 dest0).dest 5 = dest0 5 :=
  ⟨by decide,
    (read_failure_all_or_nothing hwMem emptyView 0 1 dest0 (by decide)).1 5⟩

/-- Claim C8 counterexample: memview_init on the empty segment list returns
success, but the resulting total_length is the pre-call value of the
uninitialized nbytes field, not 0: with that field holding 1 the view has
total_length 1. -/
theorem init_empty_total_not_zero :
    (memview_init 1 []).1 = true ∧ ¬ (memview_init 1 []).2.nbytes = 0 := by
  decide

/-- Claim C8 as amended: memview_init with an empty segment list succeeds
(allocation modelled as succeeding) and yields a view with no descriptors
whose total_length equals the pre-call value of the nbytes field, hence 0
exactly when the caller's struct was zeroed. -/
theorem init_empty_succeeds_total_carried (nbytes0 : Int) :
    (memview_init nbytes0 []).1 = true ∧
      (memview_init nbytes0 []).2.nbytes = nbytes0 ∧
      (memview_init nbytes0 []).2.nbuffers = 0 :=
  ⟨rfl, rfl, rfl⟩

/-- Claim C9: the total is kept in a 32-bit signed int, so a single segment
of length 2^31 (well within the platform size type) wraps the accumulated
total to -2^31 while the mathematically exact sum is 2^31: the counter
changes sign instead of holding the exact value. -/
theorem init_total_wraps_int32 :
    memview_init_nbytes_i32 0 [⟨0, 2 ^ 31⟩] = -(2 ^ 31) ∧
      (memview_init 0 [(⟨0, 2 ^ 31⟩ : Buffer)]).2.nbytes = 2 ^ 31 := by
  constructor
  · rfl
  · rfl

/-- Claim C10: memview_init copies the caller's descriptor array by value, so
overwriting the caller's array after init changes no later result: any
sequence of discards followed by a read returns exactly what it returns
without the overwrite. -/
theorem caller_descriptor_mutation_invisible (nbytes0 : Int)
    (bs bs2 : List Buffer) (L : List Nat) (mem : Nat → Nat)
    (offset len : Nat) (dest : Nat → Nat) :
    world_read mem
        (world_discards (world_mutate_caller (world_init nbytes0 bs) bs2) L)
        offset len dest
      = world_read mem (world_discards (world_init nbytes0 bs) L)
          offset len dest :=
  congrArg (fun v => memview_read mem v offset len dest)
    (world_discards_view bs bs2 L (memview_init nbytes0 bs).2)

/-- Validation against main: after discard_front(2), read(0, 4) returns llow
and read(9, 1) fails. -/
theorem model_agrees_main_after_discard :
    (memview_read hwMem (memview_discard_front hwView 2) 0 4 dest0).dest 0 = 108 ∧
      (memview_read hwMem (memview_discard_front hwView 2) 0 4 dest0).dest 1 = 108 ∧
      (memview_read hwMem (memview_discard_front hwView 2) 0 4 dest0).dest 2 = 111 ∧
      (memview_read hwMem (memview_discard_front hwView 2) 0 4 dest0).dest 3 = 119 ∧
      (memview_read hwMem (memview_discard_front hwView 2) 9 1 dest0).ok = false := by
  decide
